import Mathlib

/-!
Formal model of the conversational task-management agent: the in-memory
task store (`tools/task_tools.py`), the keyword intent classifier, the
action executor with its due-date priority escalation, and the request
orchestrator (`agents/google_adk_agent.py`).  Machine integers are `Nat`
or `Int`; timestamps are seconds since an arbitrary epoch; a calendar
date is its day number (so its midnight is `day * 86400` seconds); the
language-model collaborator and the date parser are oracle parameters.
-/

set_option autoImplicit false

namespace TaskMgr

/-- ASCII lower-casing of one character, modelling Python `str.lower`
on the ASCII range (uppercase letters are code points 65 to 90). -/
def lowerChar (c : Char) : Char :=
  if 65 ≤ c.toNat ∧ c.toNat ≤ 90 then Char.ofNat (c.toNat + 32) else c

/-- Python `s.lower()` on a string. -/
def lowerStr (s : String) : String :=
  String.mk (s.data.map lowerChar)

/-- Python truthiness of an optional string: `None` and `""` are falsy. -/
def optTruthy : Option String → Bool
  | none => false
  | some v => v ≠ ""

/-- Python truthiness of an optional integer: `None` and `0` are falsy. -/
def optNatTruthy : Option Nat → Bool
  | none => false
  | some n => n ≠ 0

/-- A task record, mirroring the dict built by `TaskTools.create_task`. -/
structure Task where
  id : Nat
  title : String
  description : String
  priority : String
  due_date : Option String
  status : String
  created_at : Nat
  completed_at : Option Nat
  deriving DecidableEq, Repr

/-- The module-level mutable state of `task_tools.py`: the list
`tasks_db` plus the `itertools.count(start=1)` id source, represented
by the next id it will yield. -/
structure TaskStore where
  tasks_db : List Task
  counter : Nat
  deriving DecidableEq, Repr

/-- The store at interpreter start: empty list, counter at 1. -/
def initialStore : TaskStore where
  tasks_db := []
  counter := 1

namespace TaskTools

/-- Model of `TaskTools.create_task`: allocate the next id, lower-case the
priority, set status pending, append to the store. -/
def create_task (s : TaskStore) (now : Nat) (title description priority : String)
    (due_date : Option String) : Task × TaskStore :=
  let task : Task :=
    { id := s.counter
      title := title
      description := description
      priority := lowerStr priority
      due_date := due_date
      status := "pending"
      created_at := now
      completed_at := none }
  (task, { tasks_db := s.tasks_db ++ [task], counter := s.counter + 1 })

/-- Model of `TaskTools.list_tasks`: a truthy status filters by equality,
otherwise all tasks are returned in store order. -/
def list_tasks (s : TaskStore) (status : Option String) : List Task :=
  if optTruthy status then
    s.tasks_db.filter (fun t => t.status == status.getD "")
  else
    s.tasks_db

/-- Model of `TaskTools.get_task`: first task with the given id, if any. -/
def get_task (s : TaskStore) (task_id : Nat) : Option Task :=
  s.tasks_db.find? (fun t => t.id == task_id)

/-- Line 94 to 95 of `task_tools.py`: `if title: task["title"] = title`. -/
def applyTitle (title : Option String) (t : Task) : Task :=
  if optTruthy title then { t with title := title.getD "" } else t

/-- Line 96 to 97: `if description: task["description"] = description`. -/
def applyDescription (description : Option String) (t : Task) : Task :=
  if optTruthy description then { t with description := description.getD "" } else t

/-- Line 98 to 99: `if priority: task["priority"] = priority.lower()`. -/
def applyPriority (priority : Option String) (t : Task) : Task :=
  if optTruthy priority then { t with priority := lowerStr (priority.getD "") } else t

/-- Line 100 to 101: `if due_date: task["due_date"] = due_date`. -/
def applyDueDate (due_date : Option String) (t : Task) : Task :=
  if optTruthy due_date then { t with due_date := due_date } else t

/-- Line 102 to 105: a truthy status is lower-cased and stored, and the
value "completed" additionally stamps `completed_at` with now. -/
def applyStatus (now : Nat) (status : Option String) (t : Task) : Task :=
  if optTruthy status then
    let st := lowerStr (status.getD "")
    let t1 := { t with status := st }
    if st == "completed" then { t1 with completed_at := some now } else t1
  else t

/-- The in-place field mutations of `update_task`, in source order. -/
def updateFields (now : Nat) (title description priority status due_date : Option String)
    (t : Task) : Task :=
  applyStatus now status
    (applyDueDate due_date
      (applyPriority priority
        (applyDescription description
          (applyTitle title t))))

/-- Replace the first element satisfying `p` by its image under `f`,
modelling in-place mutation of the dict found by `get_task`. -/
def updateFirst (p : Task → Bool) (f : Task → Task) : List Task → List Task
  | [] => []
  | t :: ts => if p t then f t :: ts else t :: updateFirst p f ts

/-- Model of `TaskTools.update_task`: look the task up by id; absent id returns
`None` and leaves the store alone; otherwise mutate the found task. -/
def update_task (s : TaskStore) (now : Nat) (task_id : Nat)
    (title description priority status due_date : Option String) :
    Option Task × TaskStore :=
  match s.tasks_db.find? (fun t => t.id == task_id) with
  | none => (none, s)
  | some t =>
      (some (updateFields now title description priority status due_date t),
       { s with
          tasks_db :=
            updateFirst (fun u => u.id == task_id)
              (updateFields now title description priority status due_date)
              s.tasks_db })

/-- Model of `TaskTools.delete_task`: rebuild `tasks_db` without the given id and
report whether the length shrank. -/
def delete_task (s : TaskStore) (task_id : Nat) : Bool × TaskStore :=
  let db := s.tasks_db.filter (fun t => t.id != task_id)
  (decide (db.length < s.tasks_db.length), { s with tasks_db := db })

/-- The aggregate counts returned by `TaskTools.get_statistics`. -/
structure Stats where
  total : Nat
  pending : Nat
  in_progress : Nat
  completed : Nat
  high_priority : Nat
  medium_priority : Nat
  low_priority : Nat
  deriving DecidableEq, Repr

/-- Model of `TaskTools.get_statistics`: full-scan counts by status and priority. -/
def get_statistics (s : TaskStore) : Stats where
  total := s.tasks_db.length
  pending := (s.tasks_db.filter (fun t => t.status == "pending")).length
  in_progress := (s.tasks_db.filter (fun t => t.status == "in_progress")).length
  completed := (s.tasks_db.filter (fun t => t.status == "completed")).length
  high_priority := (s.tasks_db.filter (fun t => t.priority == "high")).length
  medium_priority := (s.tasks_db.filter (fun t => t.priority == "medium")).length
  low_priority := (s.tasks_db.filter (fun t => t.priority == "low")).length

end TaskTools

/-- Whether the character list `w` is an initial segment of `s`. -/
def leadsWith : List Char → List Char → Bool
  | [], _ => true
  | _ :: _, [] => false
  | a :: as, b :: bs => a == b && leadsWith as bs

/-- Whether the character list `pat` occurs contiguously in the list. -/
def hasSub (pat : List Char) : List Char → Bool
  | [] => pat.isEmpty
  | b :: bs => leadsWith pat (b :: bs) || hasSub pat bs

/-- Python substring membership `w in s`. -/
def containsSub (s w : String) : Bool :=
  hasSub w.data s.data

/-- The operation categories returned by `_parse_user_request`. -/
inductive AgentAction where
  | deduplicate
  | create
  | list
  | update
  | delete
  | statistics
  | general
  deriving DecidableEq, Repr

/-- Model of the agent request parser: keyword rules tested on the
lower-cased request, in source order, first match winning. -/
def parseUserRequest (userRequest : String) : AgentAction :=
  let r := lowerStr userRequest
  if containsSub r "duplicate" &&
      (containsSub r "remove" || containsSub r "delete" || containsSub r "clean" ||
        containsSub r "check" || containsSub r "find") then
    .deduplicate
  else if containsSub r "create" || containsSub r "add" || containsSub r "new task" then
    .create
  else if containsSub r "list" || containsSub r "show" || containsSub r "get tasks" ||
      containsSub r "tasks" then
    .list
  else if containsSub r "update" || containsSub r "change" || containsSub r "modify" ||
      containsSub r "mark" then
    .update
  else if containsSub r "delete" || containsSub r "remove" then
    .delete
  else if containsSub r "statistics" || containsSub r "stats" || containsSub r "summary" ||
      containsSub r "overview" then
    .statistics
  else
    .general

/-- The classifier's rule table as the spec presents it: an ordered list
of (trigger predicate on the lower-cased text, category) pairs. -/
def intentRules : List ((String → Bool) × AgentAction) :=
  [ (fun r => containsSub r "duplicate" &&
      (containsSub r "remove" || containsSub r "delete" || containsSub r "clean" ||
        containsSub r "check" || containsSub r "find"), .deduplicate),
    (fun r => containsSub r "create" || containsSub r "add" || containsSub r "new task",
      .create),
    (fun r => containsSub r "list" || containsSub r "show" || containsSub r "get tasks" ||
      containsSub r "tasks", .list),
    (fun r => containsSub r "update" || containsSub r "change" || containsSub r "modify" ||
      containsSub r "mark", .update),
    (fun r => containsSub r "delete" || containsSub r "remove", .delete),
    (fun r => containsSub r "statistics" || containsSub r "stats" || containsSub r "summary" ||
      containsSub r "overview", .statistics) ]

/-- First-match evaluation of an ordered rule table, defaulting to the
general category. -/
def firstMatch : List ((String → Bool) × AgentAction) → String → AgentAction
  | [], _ => .general
  | (p, a) :: rest, r => if p r then a else firstMatch rest r

/-- The structured field set produced by `_extract_task_info` (the JSON
object the extraction model returns, with absent keys as `none`). -/
structure ExtractedParams where
  title : Option String := none
  description : Option String := none
  priority : Option String := none
  status : Option String := none
  due_date : Option String := none
  task_id : Option Nat := none
  deriving DecidableEq, Repr

/-- External side-integration calls the executor could make.  The
record is the task handed to the collaborator. -/
inductive ExtCall where
  | calendarCreateEvent (task : Task)
  | notionCreatePage (task : Task)
  deriving DecidableEq, Repr

/-- Lines 188 to 195 of `google_adk_agent.py`: with a truthy due date
that `strptime` parses to day `d`, the Python expression
`(due_dt - datetime.now()).days` is the floor of
`(d * 86400 - now) / 86400`, and priority is forced to "high" exactly
when that floor lies in `[0, 1)`; a parse failure is swallowed.  The
`strptime` call is abstracted by the `parseDate` oracle, which returns
the day number of a well-formed date string and `none` otherwise. -/
def escalatePriority (parseDate : String → Option Nat) (now : Nat)
    (due_date : Option String) (priority : String) : String :=
  if optTruthy due_date then
    match parseDate (due_date.getD "") with
    | none => priority
    | some d =>
        if 0 ≤ Int.fdiv ((d : Int) * 86400 - (now : Int)) 86400 ∧
            Int.fdiv ((d : Int) * 86400 - (now : Int)) 86400 < 1 then
          "high"
        else priority
  else priority

/-- The create branch of `_execute_action` (lines 182 to 198): default
the fields, run the escalation rule, call the store, and compose the
result message.  The third component lists the calendar or
note-database collaborator calls the branch performs: the source makes
none, so it is empty. -/
def executeCreate (parseDate : String → Option Nat) (now : Nat) (s : TaskStore)
    (p : ExtractedParams) : String × TaskStore × List ExtCall :=
  let title := p.title.getD "Untitled Task"
  let description := p.description.getD ""
  let priority0 := p.priority.getD "medium"
  let priority := escalatePriority parseDate now p.due_date priority0
  let (task, s1) := TaskTools.create_task s now title description priority p.due_date
  ("Task created successfully!\nID: " ++ toString task.id ++
      "\nTitle: " ++ task.title ++
      "\nPriority: " ++ task.priority ++
      "\nStatus: " ++ task.status,
    s1, [])

/-- One bullet of the list branch: the id/title/status/priority line,
then a Due line for a truthy due date, then a Description line for a
non-empty description, then a blank line. -/
def formatTaskLine (t : Task) : String :=
  "• ID " ++ toString t.id ++ ": " ++ t.title ++ " (" ++ t.status ++ ", " ++
      t.priority ++ " priority)\n" ++
    (if optTruthy t.due_date then "  Due: " ++ t.due_date.getD "" ++ "\n" else "") ++
    (if t.description ≠ "" then "  Description: " ++ t.description ++ "\n" else "") ++
    "\n"

/-- The list branch of `_execute_action` (lines 200 to 216). -/
def executeList (s : TaskStore) (p : ExtractedParams) : String :=
  let tasks := TaskTools.list_tasks s p.status
  if tasks.isEmpty then "No tasks found."
  else
    "Found " ++ toString tasks.length ++ " task(s):\n\n" ++
      String.join (tasks.map formatTaskLine)

/-- The target-resolution step shared by the update and delete branches
(lines 222 to 228 and 246 to 251): a truthy `task_id` resolves by id,
else a truthy `title` resolves by case-insensitive exact title match
over all tasks, else nothing. -/
def resolveTarget (s : TaskStore) (p : ExtractedParams) : Option Task :=
  if optNatTruthy p.task_id then
    TaskTools.get_task s (p.task_id.getD 0)
  else if optTruthy p.title then
    (TaskTools.list_tasks s none).find?
      (fun t => lowerStr t.title == lowerStr (p.title.getD ""))
  else none

/-- The update branch of `_execute_action` (lines 218 to 240): resolve
the target, then call `update_task` passing only status, priority and
title, and compose the success message.  Python would raise (and the
branch handler would report it) if the re-lookup failed; that arm is
unreachable because the target was just resolved. -/
def executeUpdate (now : Nat) (s : TaskStore) (p : ExtractedParams) :
    String × TaskStore :=
  match resolveTarget s p with
  | none => ("Task not found. Please check the ID or title.", s)
  | some task =>
      match TaskTools.update_task s now task.id p.title none p.priority p.status none with
      | (some updated, s1) =>
          ("Task " ++ toString updated.id ++ " updated successfully!\nTitle: " ++
              updated.title ++ "\nStatus: " ++ updated.status ++
              "\nPriority: " ++ updated.priority,
            s1)
      | (none, s1) => ("Error executing action: update target vanished", s1)

/-- The delete branch of `_execute_action` (lines 242 to 257): resolve
the target, delete by its id, report success (the boolean returned by
the store is not consulted). -/
def executeDelete (s : TaskStore) (p : ExtractedParams) : String × TaskStore :=
  match resolveTarget s p with
  | none => ("Task not found. Please check the ID or title.", s)
  | some task =>
      let (_, s1) := TaskTools.delete_task s task.id
      ("Task " ++ toString task.id ++ " deleted successfully!", s1)

/-- The statistics branch of `_execute_action` (lines 259 to 268). -/
def formatStats (st : TaskTools.Stats) : String :=
  "Task Statistics:\n• Total Tasks: " ++ toString st.total ++
    "\n• Pending: " ++ toString st.pending ++
    "\n• In Progress: " ++ toString st.in_progress ++
    "\n• Completed: " ++ toString st.completed ++
    "\n• High Priority: " ++ toString st.high_priority ++
    "\n• Medium Priority: " ++ toString st.medium_priority ++
    "\n• Low Priority: " ++ toString st.low_priority

/-- Model of the duplicate-removal routine: fewer than two non-canceled tasks is a no-op;
otherwise the language-model round trip (prompt, fence stripping, JSON
parse, integer key conversion) is abstracted by the `dedupMap` oracle:
either a failure message or the keep-id to remove-ids grouping.  Each
listed remove-id whose task and whose group keep-task both still exist
is deleted, with one report line per removal. -/
def deduplicateTasks (dedupMap : Except String (List (Nat × List Nat)))
    (s : TaskStore) : String × TaskStore :=
  let tasks := TaskTools.list_tasks s none
  let active := tasks.filter (fun t => t.status != "canceled")
  if active.length < 2 then ("Not enough tasks to check for duplicates.", s)
  else
    match dedupMap with
    | .error e => ("Error checking duplicates: " ++ e, s)
    | .ok groups =>
        let step := fun (acc : TaskStore × Nat × List String) (group : Nat × List Nat) =>
          let keepTask := TaskTools.get_task acc.1 group.1
          group.2.foldl
            (fun (acc2 : TaskStore × Nat × List String) rId =>
              match TaskTools.get_task acc2.1 rId, keepTask with
              | some rTask, some kTask =>
                  ((TaskTools.delete_task acc2.1 rId).2,
                    acc2.2.1 + 1,
                    acc2.2.2 ++
                      ["Removed \x27" ++ rTask.title ++ "\x27 (duplicate of \x27" ++
                        kTask.title ++ "\x27)"])
              | _, _ => acc2)
            acc
        let (s1, removed, report) := groups.foldl step (s, 0, ([] : List String))
        if removed > 0 then
          ("Removed " ++ toString removed ++ " duplicates:\n" ++
              String.intercalate "\n" report, s1)
        else ("No duplicates found.", s1)

/-- The outcomes of the external collaborators a single request can
consult: the `strptime` date parser and the duplicate-grouping
language-model call. -/
structure Oracles where
  parseDate : String → Option Nat
  dedupMap : Except String (List (Nat × List Nat))

/-- Model of the action dispatcher: dispatch on the category.  Branches that do not
touch the store return it unchanged. -/
def executeAction (o : Oracles) (now : Nat) (s : TaskStore) (action : AgentAction)
    (p : ExtractedParams) : String × TaskStore × List ExtCall :=
  match action with
  | .create => executeCreate o.parseDate now s p
  | .list => (executeList s p, s, [])
  | .update =>
      let (msg, s1) := executeUpdate now s p
      (msg, s1, [])
  | .delete =>
      let (msg, s1) := executeDelete s p
      (msg, s1, [])
  | .statistics => (formatStats (TaskTools.get_statistics s), s, [])
  | .deduplicate =>
      let (msg, s1) := deduplicateTasks o.dedupMap s
      (msg, s1, [])
  | .general =>
      ("I understand your request, but I\x27m not sure how to handle it. Try:\n- Creating a task\n- Listing tasks\n- Updating a task\n- Deleting a task\n- Getting statistics",
        s, [])

/-- Model of `GoogleADKAgent.process_request`: classify, extract fields only for
the mutating categories (the `extracted` parameter is the outcome of
`_extract_task_info`, already degraded to the empty field set on any
extraction failure), execute, then attempt the response-polishing
completion whose outcome is the `polish` parameter: its text is
returned on success, while a raised failure is caught by the
surrounding handler and converted to the generic error string. -/
def processRequest (o : Oracles) (now : Nat) (s : TaskStore)
    (extracted : ExtractedParams) (polish : String → Except String String)
    (userRequest : String) : String × TaskStore :=
  let action := parseUserRequest userRequest
  let params :=
    if action = .create ∨ action = .update ∨ action = .delete then extracted
    else {}
  let (result, s1, _calls) := executeAction o now s action params
  match polish result with
  | .ok text => (text, s1)
  | .error e => ("I encountered an error: " ++ e, s1)

/-- The result string the executor hands to the polishing step inside
`process_request`, before any polishing is attempted. -/
def unpolishedResult (o : Oracles) (now : Nat) (s : TaskStore)
    (extracted : ExtractedParams) (userRequest : String) : String :=
  let action := parseUserRequest userRequest
  let params :=
    if action = .create ∨ action = .update ∨ action = .delete then extracted
    else {}
  (executeAction o now s action params).1

/-- The side-integration calls the spec's create step prescribes, in
the spec's words: on success, a calendar notification when a due date
exists, and always a note-database notification with the created task.
Stated only to be compared with the source-derived `executeCreate`. -/
def specCreateCalls (task : Task) : List ExtCall :=
  (if optTruthy task.due_date then [ExtCall.calendarCreateEvent task] else []) ++
    [ExtCall.notionCreatePage task]

/-- A sample stored task used to instantiate general theorems. -/
def sampleTask : Task where
  id := 1
  title := "Buy milk"
  description := ""
  priority := "medium"
  due_date := none
  status := "pending"
  created_at := 0
  completed_at := none

/-- A store holding just `sampleTask`, with the counter past it. -/
def sampleStore : TaskStore where
  tasks_db := [sampleTask]
  counter := 2

/-- A date-parse oracle knowing one date string, for day number 1. -/
def pdDay1 : String → Option Nat :=
  fun d => if d = "2020-01-02" then some 1 else none

/-- Extraction output requesting a low-priority task due on the parsed
day 1 date. -/
def paramsDueToday : ExtractedParams :=
  { title := some "T", priority := some "low", due_date := some "2020-01-02" }

/-- A date-parse oracle that fails on every string. -/
def pdNone : String → Option Nat := fun _ => none

/-- Extraction output with a due date present. -/
def paramsPayRent : ExtractedParams :=
  { title := some "Pay rent", due_date := some "2025-06-01" }

/-- The task the create branch stores for `paramsPayRent` on the empty
store at time 0. -/
def payRentTask : Task where
  id := 1
  title := "Pay rent"
  description := ""
  priority := "medium"
  due_date := some "2025-06-01"
  status := "pending"
  created_at := 0
  completed_at := none

/-- Claim C8: classifying "remove duplicate tasks" yields the
duplicate-removal category despite the request containing "remove" (and
"tasks"), and on every request the classifier agrees with first-match
evaluation of the ordered rule table duplicate-removal, create, list,
update, delete, statistics. -/
theorem C8_classifier_first_match :
    parseUserRequest "remove duplicate tasks" = AgentAction.deduplicate ∧
    ∀ r, parseUserRequest r = firstMatch intentRules (lowerStr r) :=
  ⟨by decide, fun _ => rfl⟩

/-- Claim C10: an empty-string status filter is falsy, so `list_tasks`
returns every stored task rather than the tasks whose status is `""`. -/
theorem C10_empty_filter_returns_all (s : TaskStore) :
    TaskTools.list_tasks s (some "") = s.tasks_db :=
  rfl

/-- Claim C9 (counterexample): the empty string is a non-`None` status
filter, yet on a store holding one pending task `list_tasks ""` returns
that task instead of the (empty) set of tasks whose status is `""`. -/
theorem C9_counterexample :
    TaskTools.list_tasks sampleStore (some "") ≠
      sampleStore.tasks_db.filter (fun t => t.status == "") := by
  decide

/-- Claim C9 (amended): for every non-`None`, non-empty status filter,
`list_tasks` returns exactly the stored tasks whose status equals the
filter, in insertion order, and `list_tasks none` returns all tasks. -/
theorem C9_nonempty_filter (s : TaskStore) (st : String) (h : st ≠ "") :
    TaskTools.list_tasks s (some st) =
      s.tasks_db.filter (fun t => t.status == st) ∧
    TaskTools.list_tasks s none = s.tasks_db := by
  constructor
  · simp [TaskTools.list_tasks, optTruthy, h]
  · rfl

/-- Instantiation of the amended C9 on a concrete store and filter. -/
theorem C9_witness :
    ("pending" ≠ "") ∧
    (TaskTools.list_tasks sampleStore (some "pending") =
        sampleStore.tasks_db.filter (fun t => t.status == "pending") ∧
      TaskTools.list_tasks sampleStore none = sampleStore.tasks_db) :=
  ⟨by decide, C9_nonempty_filter sampleStore "pending" (by decide)⟩

/-- Claim C2 (counterexample): a create with a due date stores the task
but the executor performs no collaborator calls at all, although the
spec prescribes a note-database call and, here, a calendar call. -/
theorem C2_counterexample :
    (executeCreate pdNone 0 initialStore paramsPayRent).2.1.tasks_db = [payRentTask] ∧
    (executeCreate pdNone 0 initialStore paramsPayRent).2.2 = ([] : List ExtCall) ∧
    specCreateCalls payRentTask ≠ ([] : List ExtCall) := by
  decide

/-- Claim C2 (amended): every create appends exactly one task to the
store and composes the id/title/priority/status message, but notifies
neither the note-database collaborator nor the calendar collaborator:
the branch's collaborator-call list is always empty. -/
theorem C2_create_never_notifies (pd : String → Option Nat) (now : Nat)
    (s : TaskStore) (p : ExtractedParams) :
    (executeCreate pd now s p).2.2 = ([] : List ExtCall) ∧
    ∃ task, (executeCreate pd now s p).2.1.tasks_db = s.tasks_db ++ [task] ∧
      (executeCreate pd now s p).1 =
        "Task created successfully!\nID: " ++ toString task.id ++
          "\nTitle: " ++ task.title ++ "\nPriority: " ++ task.priority ++
          "\nStatus: " ++ task.status :=
  ⟨rfl, ⟨_, rfl, rfl⟩⟩

/-- Claim C1 (counterexample): at time 90000 (one hour past midnight of
day 1) a create request whose due date parses to day 1 — the current
day — keeps its extracted priority "low": Python floors the negative
time difference to -1 days, so the escalation test `[0, 1)` fails. -/
theorem C1_counterexample :
    pdDay1 "2020-01-02" = some 1 ∧
    (90000 : Nat) / 86400 = 1 ∧
    (executeCreate pdDay1 90000 initialStore paramsDueToday).2.1.tasks_db.map
        Task.priority = ["low"] ∧
    ("low" : String) ≠ "high" := by
  decide

/-- Claim C1 (amended): with a parsed due date for day `d`, the created
task's priority is forced to "high" exactly when `now` lies in the
half-open 24-hour window ending at the due date's midnight — that is,
when the due date is the day after the current day (or the current day
itself only when `now` is exactly midnight); otherwise, in particular
for a due date equal to the current day at any later instant, the
lower-cased extracted priority is kept. -/
theorem C1_escalation_window (pd : String → Option Nat) (now : Nat) (s : TaskStore)
    (p : ExtractedParams) (ds : String) (d : Nat) (pr : String)
    (hds : p.due_date = some ds) (hne : ds ≠ "") (hpd : pd ds = some d)
    (hpr : p.priority = some pr) :
    (executeCreate pd now s p).2.1.tasks_db.map Task.priority =
      s.tasks_db.map Task.priority ++
        [if (now : Int) ≤ (d : Int) * 86400 ∧ (d : Int) * 86400 < (now : Int) + 86400
          then "high" else lowerStr pr] := by
  have htr : optTruthy p.due_date = true := by simp [hds, optTruthy, hne]
  have hcond : (0 ≤ Int.fdiv ((d : Int) * 86400 - (now : Int)) 86400 ∧
        Int.fdiv ((d : Int) * 86400 - (now : Int)) 86400 < 1) ↔
      ((now : Int) ≤ (d : Int) * 86400 ∧ (d : Int) * 86400 < (now : Int) + 86400) := by
    rw [Int.fdiv_eq_ediv _ (by norm_num)]
    omega
  have hlow : lowerStr "high" = "high" := by decide
  have htr2 : optTruthy (some ds) = true := by simp [optTruthy, hne]
  simp only [executeCreate, TaskTools.create_task, escalatePriority, hds, htr2, hpd,
    hpr, Option.getD_some, if_true, List.map_append, List.map_cons, List.map_nil]
  by_cases hA : (0 ≤ Int.fdiv ((d : Int) * 86400 - (now : Int)) 86400 ∧
      Int.fdiv ((d : Int) * 86400 - (now : Int)) 86400 < 1)
  · rw [if_pos hA, if_pos (hcond.mp hA), hlow]
  · rw [if_neg hA, if_neg (fun hB => hA (hcond.mpr hB))]

/-- A date-parse oracle knowing one date string, for day number 2. -/
def pdDay2 : String → Option Nat :=
  fun d => if d = "2020-01-03" then some 2 else none

/-- Extraction output requesting a low-priority task due on the parsed
day 2 date. -/
def paramsDueTomorrow : ExtractedParams :=
  { title := some "T", priority := some "low", due_date := some "2020-01-03" }

/-- Instantiation of the amended C1 at time 90000 (during day 1) with a
due date on day 2, the day after the current day. -/
theorem C1_witness :
    (executeCreate pdDay2 90000 initialStore paramsDueTomorrow).2.1.tasks_db.map
        Task.priority =
      initialStore.tasks_db.map Task.priority ++
        [if ((90000 : Nat) : Int) ≤ ((2 : Nat) : Int) * 86400 ∧
            ((2 : Nat) : Int) * 86400 < ((90000 : Nat) : Int) + 86400
          then "high" else lowerStr "low"] := by
  exact C1_escalation_window pdDay2 90000 initialStore paramsDueTomorrow
    "2020-01-03" 2 "low" rfl (by decide) (by decide) rfl

/-- The oracle bundle used to instantiate orchestrator theorems. -/
def oracleNoop : Oracles where
  parseDate := fun _ => none
  dedupMap := .ok []

/-- A polishing-call outcome that always fails. -/
def polishBoom : String → Except String String :=
  fun _ => Except.error "boom"

/-- Claim C3 (counterexample): on "show tasks" against the empty store
the executor produces "No tasks found.", but when the final polishing
call fails `process_request` returns the generic error string, not that
unpolished result. -/
theorem C3_counterexample :
    (processRequest oracleNoop 0 initialStore {} polishBoom "show tasks").1 =
      "I encountered an error: boom" ∧
    unpolishedResult oracleNoop 0 initialStore {} "show tasks" = "No tasks found." ∧
    ("I encountered an error: boom" : String) ≠ "No tasks found." := by
  decide

/-- Claim C3 (amended): whenever the final response-polishing call
fails after the executor has produced its result, `process_request`
returns the generic error string built from the failure message — it
does not fall back to the unpolished result. -/
theorem C3_polish_failure (o : Oracles) (now : Nat) (s : TaskStore)
    (extracted : ExtractedParams) (polish : String → Except String String)
    (req e : String)
    (h : polish (unpolishedResult o now s extracted req) = Except.error e) :
    (processRequest o now s extracted polish req).1 =
      "I encountered an error: " ++ e := by
  simp only [processRequest]
  simp only [unpolishedResult] at h
  rw [h]

/-- Instantiation of the amended C3 at a concrete failing polish. -/
theorem C3_witness :
    (polishBoom (unpolishedResult oracleNoop 0 initialStore {} "show tasks") =
      Except.error "boom") ∧
    (processRequest oracleNoop 0 initialStore {} polishBoom "show tasks").1 =
      "I encountered an error: " ++ "boom" :=
  ⟨rfl, C3_polish_failure oracleNoop 0 initialStore {} polishBoom "show tasks"
    "boom" rfl⟩

namespace TaskTools

theorem applyTitle_id (x : Option String) (t : Task) : (applyTitle x t).id = t.id := by
  unfold applyTitle
  split <;> rfl

theorem applyDescription_id (x : Option String) (t : Task) :
    (applyDescription x t).id = t.id := by
  unfold applyDescription
  split <;> rfl

theorem applyPriority_id (x : Option String) (t : Task) :
    (applyPriority x t).id = t.id := by
  unfold applyPriority
  split <;> rfl

theorem applyDueDate_id (x : Option String) (t : Task) : (applyDueDate x t).id = t.id := by
  unfold applyDueDate
  split <;> rfl

theorem applyStatus_id (now : Nat) (x : Option String) (t : Task) :
    (applyStatus now x t).id = t.id := by
  unfold applyStatus
  split
  · dsimp only
    split <;> rfl
  · rfl

theorem updateFields_id (now : Nat) (a b c d e : Option String) (t : Task) :
    (updateFields now a b c d e t).id = t.id := by
  unfold updateFields
  rw [applyStatus_id, applyDueDate_id, applyPriority_id, applyDescription_id,
    applyTitle_id]

/-- Updating the first match of `p` keeps `find? p` pointing at that
element's image, provided `f` preserves `p`. -/
theorem find?_updateFirst (p : Task → Bool) (f : Task → Task)
    (hp : ∀ a, p a = true → p (f a) = true) :
    ∀ (l : List Task) (a : Task), l.find? p = some a →
      (updateFirst p f l).find? p = some (f a) := by
  intro l
  induction l with
  | nil => intro a h; simp [List.find?] at h
  | cons b bs ih =>
      intro a h
      by_cases hb : p b = true
      · rw [List.find?_cons_of_pos _ hb] at h
        cases h
        unfold updateFirst
        rw [if_pos hb, List.find?_cons_of_pos _ (hp b hb)]
      · rw [List.find?_cons_of_neg _ (by simpa using hb)] at h
        unfold updateFirst
        rw [if_neg hb, List.find?_cons_of_neg _ (by simpa using hb)]
        exact ih a h

/-- Shape of `update_task` when the id resolves. -/
theorem update_task_found (s : TaskStore) (now task_id : Nat)
    (a b c d e : Option String) (t : Task)
    (h : s.tasks_db.find? (fun u => u.id == task_id) = some t) :
    update_task s now task_id a b c d e =
      (some (updateFields now a b c d e t),
       { s with
          tasks_db :=
            updateFirst (fun u => u.id == task_id) (updateFields now a b c d e)
              s.tasks_db }) := by
  unfold update_task
  rw [h]

theorem applyStatus_completed (now : Nat) (t : Task) :
    applyStatus now (some "completed") t =
      { t with status := "completed", completed_at := some now } := by
  rfl

theorem applyStatus_not_completed (now : Nat) (st : String) (t : Task)
    (h1 : st ≠ "") (h2 : lowerStr st ≠ "completed") :
    applyStatus now (some st) t = { t with status := lowerStr st } := by
  unfold applyStatus
  rw [if_pos (by simp [optTruthy, h1])]
  simp only [Option.getD_some]
  rw [if_neg (by simpa using h2)]

theorem updateFields_status_only (now : Nat) (status : Option String) (t : Task) :
    updateFields now none none none status none t = applyStatus now status t :=
  rfl

end TaskTools

/-- Claim C4: updating a stored task's status to "completed" stamps
`completed_at` with the current time, and a later update of the same
task to any other (truthy, non-"completed") status such as "pending"
leaves that stamp untouched rather than clearing it. -/
theorem C4_completed_at_not_cleared (s : TaskStore) (now1 now2 tid : Nat) (t : Task)
    (h : s.tasks_db.find? (fun u => u.id == tid) = some t)
    (st : String) (h1 : st ≠ "") (h2 : lowerStr st ≠ "completed") :
    (TaskTools.update_task s now1 tid none none none (some "completed") none).1.map
        Task.completed_at = some (some now1) ∧
    (TaskTools.update_task
        (TaskTools.update_task s now1 tid none none none (some "completed") none).2
        now2 tid none none none (some st) none).1.map Task.completed_at =
      some (some now1) := by
  have e1 := TaskTools.update_task_found s now1 tid none none none (some "completed")
    none t h
  have hfind2 : (TaskTools.update_task s now1 tid none none none (some "completed")
        none).2.tasks_db.find? (fun u => u.id == tid) =
      some (TaskTools.updateFields now1 none none none (some "completed") none t) := by
    rw [e1]
    exact TaskTools.find?_updateFirst _ _
      (fun a ha => by rw [← ha]; simp [TaskTools.updateFields_id]) s.tasks_db t h
  have e2 := TaskTools.update_task_found _ now2 tid none none none (some st) none _
    hfind2
  constructor
  · rw [e1]
    simp [TaskTools.updateFields_status_only, TaskTools.applyStatus_completed]
  · rw [e2]
    simp [TaskTools.updateFields_status_only, TaskTools.applyStatus_completed,
      TaskTools.applyStatus_not_completed now2 st _ h1 h2]

/-- Instantiation of C4: complete task 1 at time 5, then set it back to
pending at time 7; the completion stamp remains at 5. -/
theorem C4_witness :
    (TaskTools.update_task sampleStore 5 1 none none none (some "completed") none).1.map
        Task.completed_at = some (some 5) ∧
    (TaskTools.update_task
        (TaskTools.update_task sampleStore 5 1 none none none (some "completed") none).2
        7 1 none none none (some "pending") none).1.map Task.completed_at =
      some (some 5) :=
  C4_completed_at_not_cleared sampleStore 5 7 1 sampleTask (by decide) "pending"
    (by decide) (by decide)

namespace TaskTools

theorem applyTitle_empty (t : Task) : applyTitle (some "") t = t :=
  rfl

theorem applyDescription_empty (t : Task) : applyDescription (some "") t = t :=
  rfl

theorem applyDescription_title (x : Option String) (t : Task) :
    (applyDescription x t).title = t.title := by
  unfold applyDescription
  split <;> rfl

theorem applyPriority_title (x : Option String) (t : Task) :
    (applyPriority x t).title = t.title := by
  unfold applyPriority
  split <;> rfl

theorem applyDueDate_title (x : Option String) (t : Task) :
    (applyDueDate x t).title = t.title := by
  unfold applyDueDate
  split <;> rfl

theorem applyStatus_title (now : Nat) (x : Option String) (t : Task) :
    (applyStatus now x t).title = t.title := by
  unfold applyStatus
  split
  · dsimp only
    split <;> rfl
  · rfl

theorem applyPriority_description (x : Option String) (t : Task) :
    (applyPriority x t).description = t.description := by
  unfold applyPriority
  split <;> rfl

theorem applyDueDate_description (x : Option String) (t : Task) :
    (applyDueDate x t).description = t.description := by
  unfold applyDueDate
  split <;> rfl

theorem applyStatus_description (now : Nat) (x : Option String) (t : Task) :
    (applyStatus now x t).description = t.description := by
  unfold applyStatus
  split
  · dsimp only
    split <;> rfl
  · rfl

end TaskTools

/-- Claim C5: passing the empty string for `title` and `description` to
`update_task` leaves both fields exactly as they were, whatever the
other arguments do: the empty string is falsy, hence "not provided". -/
theorem C5_empty_string_not_provided (s : TaskStore) (now tid : Nat) (t : Task)
    (h : s.tasks_db.find? (fun u => u.id == tid) = some t)
    (priority status due_date : Option String) :
    (TaskTools.update_task s now tid (some "") (some "") priority status
        due_date).1.map Task.title = some t.title ∧
    (TaskTools.update_task s now tid (some "") (some "") priority status
        due_date).1.map Task.description = some t.description := by
  rw [TaskTools.update_task_found s now tid (some "") (some "") priority status
    due_date t h]
  constructor
  · simp [TaskTools.updateFields, TaskTools.applyStatus_title,
      TaskTools.applyDueDate_title, TaskTools.applyPriority_title,
      TaskTools.applyDescription_title, TaskTools.applyTitle_empty]
  · simp [TaskTools.updateFields, TaskTools.applyStatus_description,
      TaskTools.applyDueDate_description, TaskTools.applyPriority_description,
      TaskTools.applyDescription_empty, TaskTools.applyTitle_empty]

/-- Instantiation of C5 on the sample store: an update with empty title
and description (and a priority change) keeps both fields. -/
theorem C5_witness :
    (TaskTools.update_task sampleStore 3 1 (some "") (some "") (some "High") none
        none).1.map Task.title = some sampleTask.title ∧
    (TaskTools.update_task sampleStore 3 1 (some "") (some "") (some "High") none
        none).1.map Task.description = some sampleTask.description :=
  C5_empty_string_not_provided sampleStore 3 1 sampleTask (by decide) (some "High")
    none none

/-- A mutating store operation: one call to `create_task`,
`update_task` or `delete_task`, with its non-store arguments. -/
inductive StoreOp where
  | createOp (now : Nat) (title description priority : String) (due_date : Option String)
  | updateOp (now : Nat) (task_id : Nat)
      (title description priority status due_date : Option String)
  | deleteOp (task_id : Nat)

/-- Apply one operation, reporting the id of a task it created. -/
def applyStoreOp (s : TaskStore) : StoreOp → TaskStore × Option Nat
  | .createOp now ti de pr dd =>
      ((TaskTools.create_task s now ti de pr dd).2,
        some (TaskTools.create_task s now ti de pr dd).1.id)
  | .updateOp now tid a b c d e => ((TaskTools.update_task s now tid a b c d e).2, none)
  | .deleteOp tid => ((TaskTools.delete_task s tid).2, none)

/-- Run a sequence of operations, collecting created ids in order. -/
def runOps (s : TaskStore) : List StoreOp → TaskStore × List Nat
  | [] => (s, [])
  | op :: ops =>
      ((runOps (applyStoreOp s op).1 ops).1,
        (applyStoreOp s op).2.toList ++ (runOps (applyStoreOp s op).1 ops).2)

theorem update_task_counter (s : TaskStore) (now tid : Nat)
    (a b c d e : Option String) :
    (TaskTools.update_task s now tid a b c d e).2.counter = s.counter := by
  unfold TaskTools.update_task
  split <;> rfl

theorem applyStoreOp_counter (s : TaskStore) (op : StoreOp) :
    s.counter ≤ (applyStoreOp s op).1.counter := by
  cases op with
  | createOp now ti de pr dd => exact Nat.le_succ _
  | updateOp now tid a b c d e =>
      rw [show (applyStoreOp s (.updateOp now tid a b c d e)).1 =
        (TaskTools.update_task s now tid a b c d e).2 from rfl, update_task_counter]
  | deleteOp tid => exact le_refl _

theorem applyStoreOp_created (s : TaskStore) (op : StoreOp) (i : Nat)
    (h : (applyStoreOp s op).2 = some i) :
    i = s.counter ∧ (applyStoreOp s op).1.counter = s.counter + 1 := by
  cases op with
  | createOp now ti de pr dd =>
      refine ⟨?_, rfl⟩
      simp only [applyStoreOp, TaskTools.create_task, Option.some.injEq] at h
      exact h.symm
  | updateOp now tid a b c d e => exact absurd h (by simp [applyStoreOp])
  | deleteOp tid => exact absurd h (by simp [applyStoreOp])

theorem runOps_ids_ge (ops : List StoreOp) :
    ∀ (s : TaskStore) (i : Nat), i ∈ (runOps s ops).2 → s.counter ≤ i := by
  induction ops with
  | nil => intro s i h; simp [runOps] at h
  | cons op ops ih =>
      intro s i h
      simp only [runOps, List.mem_append] at h
      rcases h with h | h
      · rcases hco : (applyStoreOp s op).2 with _ | j
        · rw [hco] at h; simp at h
        · rw [hco] at h
          simp only [Option.toList_some, List.mem_singleton] at h
          subst h
          exact le_of_eq (applyStoreOp_created s op i hco).1.symm
      · exact le_trans (applyStoreOp_counter s op) (ih _ i h)

/-- Claim C6: across any sequence of store operations, created ids are
strictly increasing in creation order (each new id exceeds every
earlier one) and are never repeated, deletions notwithstanding, because
the id counter only ever moves forward. -/
theorem C6_ids_strictly_increasing (s : TaskStore) (ops : List StoreOp) :
    ((runOps s ops).2.Pairwise (· < ·)) ∧ (runOps s ops).2.Nodup := by
  have main : ∀ (ops : List StoreOp) (s : TaskStore),
      (runOps s ops).2.Pairwise (· < ·) := by
    intro ops
    induction ops with
    | nil => intro s; simp [runOps]
    | cons op ops ih =>
        intro s
        simp only [runOps]
        rcases hco : (applyStoreOp s op).2 with _ | i
        · simpa using ih _
        · simp only [Option.toList_some, List.singleton_append, List.pairwise_cons]
          refine ⟨fun j hj => ?_, ih _⟩
          have h1 := runOps_ids_ge ops (applyStoreOp s op).1 j hj
          obtain ⟨h2, h3⟩ := applyStoreOp_created s op i hco
          omega
  exact ⟨main ops s, (main ops s).imp (fun hab => ne_of_lt hab)⟩

/-- On a list with no duplicate ids that contains a task with id `tid`,
dropping every task of that id equals erasing the first (unique) one:
all other tasks survive, in order. -/
theorem filter_ne_eq_eraseP (tid : Nat) :
    ∀ (l : List Task), (l.map Task.id).Nodup → ∀ t ∈ l, t.id = tid →
      l.filter (fun u => u.id != tid) = l.eraseP (fun u => u.id == tid) := by
  intro l
  induction l with
  | nil => intro _ t ht; simp at ht
  | cons a as ih =>
      intro hnd t ht hid
      by_cases ha : a.id = tid
      · rw [List.eraseP_cons_of_pos (by simp [ha]), List.filter_cons,
          if_neg (by simp [ha])]
        apply List.filter_eq_self.mpr
        intro x hx
        have hnotin : a.id ∉ as.map Task.id := by
          rw [List.map_cons, List.nodup_cons] at hnd
          exact hnd.1
        simp only [bne_iff_ne, ne_eq]
        intro hxx
        exact hnotin (by rw [ha, ← hxx]; exact List.mem_map_of_mem Task.id hx)
      · rw [List.eraseP_cons_of_neg (by simp [ha]), List.filter_cons,
          if_pos (by simp [ha])]
        have ht' : t ∈ as := by
          rcases List.mem_cons.mp ht with h | h
          · exact absurd (h ▸ hid) ha
          · exact h
        have hnd' : (as.map Task.id).Nodup := by
          rw [List.map_cons, List.nodup_cons] at hnd
          exact hnd.2
        rw [ih hnd' t ht' hid]

/-- Claim C7: deleting an id absent from the store returns false and
leaves the store untouched; deleting an id present in a store with
unique ids returns true and removes exactly that task, every other task
kept in order. -/
theorem C7_delete_semantics (s : TaskStore) (tid : Nat) :
    ((∀ t ∈ s.tasks_db, t.id ≠ tid) → TaskTools.delete_task s tid = (false, s)) ∧
    ((s.tasks_db.map Task.id).Nodup → ∀ t ∈ s.tasks_db, t.id = tid →
      (TaskTools.delete_task s tid).1 = true ∧
      (TaskTools.delete_task s tid).2.tasks_db =
        s.tasks_db.eraseP (fun u => u.id == tid)) := by
  constructor
  · intro h
    have hf : s.tasks_db.filter (fun u => u.id != tid) = s.tasks_db :=
      List.filter_eq_self.mpr (fun a ha => by simpa using h a ha)
    unfold TaskTools.delete_task
    dsimp only
    rw [hf]
    refine Prod.ext ?_ rfl
    simp
  · intro hnd t ht hid
    have heq : s.tasks_db.filter (fun u => u.id != tid) =
        s.tasks_db.eraseP (fun u => u.id == tid) :=
      filter_ne_eq_eraseP tid s.tasks_db hnd t ht hid
    have hlen : (s.tasks_db.eraseP (fun u => u.id == tid)).length =
        s.tasks_db.length - 1 :=
      List.length_eraseP_of_mem ht (by simp [hid])
    have hpos : 0 < s.tasks_db.length := List.length_pos.mpr (by
      intro hcon
      rw [hcon] at ht
      simp at ht)
    constructor
    · unfold TaskTools.delete_task
      dsimp only
      rw [heq]
      simp only [decide_eq_true_eq, hlen]
      omega
    · unfold TaskTools.delete_task
      dsimp only
      rw [heq]

/-- A second sample task, distinct from `sampleTask`. -/
def sampleTaskTwo : Task where
  id := 2
  title := "Finish course"
  description := ""
  priority := "medium"
  due_date := none
  status := "pending"
  created_at := 0
  completed_at := none

/-- A store holding tasks 1 and 2. -/
def twoTaskStore : TaskStore where
  tasks_db := [sampleTask, sampleTaskTwo]
  counter := 3

/-- Instantiation of C7: deleting the absent id 99 is a no-op returning
false; deleting the present id 1 returns true and erases that task. -/
theorem C7_witness :
    (TaskTools.delete_task twoTaskStore 99 = (false, twoTaskStore)) ∧
    ((TaskTools.delete_task twoTaskStore 1).1 = true ∧
      (TaskTools.delete_task twoTaskStore 1).2.tasks_db =
        twoTaskStore.tasks_db.eraseP (fun u => u.id == 1)) :=
  ⟨(C7_delete_semantics twoTaskStore 99).1 (by decide),
    (C7_delete_semantics twoTaskStore 1).2 (by decide) sampleTask (by decide) rfl⟩

end TaskMgr
